import Mathlib

/-!
Shallow embedding of the hue_mie circadian light controller
(`src/main.rs`, `src/config.rs`) and proofs about its core logic:
the circadian curve model, the `LightTarget` oscillation, the scene
activity detector, and the scene reconciliation loop.

Rust `f64` values are modelled as real numbers; Rust `u8`/`u16` as `Nat`
(the operations used never overflow or underflow); fallible bridge calls
as `Option`-returning functions, with `.unwrap()` on `None` modelled as
an aborting "panic" outcome that is propagated explicitly.
-/

namespace HueMie

/-! ## Numeric helpers (`main.rs` lines 25–71) -/

/-- `ExtraMath::sigmoid` for `f64`: `self.exp() / (self.exp() + 1)`. -/
noncomputable def sigmoid (x : ℝ) : ℝ := Real.exp x / (Real.exp x + 1)

/-- `kelvin_to_mired`: `1_000_000 / kelvin`. -/
noncomputable def kelvin_to_mired (kelvin : ℝ) : ℝ := 1000000 / kelvin

/-- Rust `f64::to_degrees`: multiply by `180 / π`. -/
noncomputable def toDegrees (x : ℝ) : ℝ := x * (180 / Real.pi)

namespace i8_extra

/-- `i8_extra::diff` on `u8`: `if left > right { left - right } else { right - left }`. -/
def diff (left right : Nat) : Nat :=
  if left > right then left - right else right - left

/-- `i8_extra::is_close`: `diff(left, right) < 6`. -/
def is_close (left right : Nat) : Bool := diff left right < 6

end i8_extra

namespace i16_extra

/-- `i16_extra::diff` on `u16`. -/
def diff (left right : Nat) : Nat :=
  if left > right then left - right else right - left

/-- `i16_extra::is_close`: `diff(left, right) < 40`. -/
def is_close (left right : Nat) : Bool := diff left right < 40

end i16_extra

/-! ## Configuration (`config.rs`) -/

/-- `config::Transitions`: the circadian curve parameters. `f64` fields are
reals; the two hour fields are `u8` values modelled as `Nat`. -/
structure Transitions where
  day_brightness : ℝ
  day_temperature : ℝ
  night_temperature : ℝ
  night_brightness : ℝ
  deep_night_brightness : ℝ
  deep_night_start_hour : Nat
  deep_night_end_hour : Nat
  sun_altitude_dawn_point : ℝ
  transition_time : ℝ
  brightness_cycle_length : ℝ
  temperature_cycle_length : ℝ
  brightness_cycle_amplitude : ℝ
  temperature_cycle_amplitude : ℝ

/-- `Transitions::default()` from `config.rs`. -/
noncomputable def defaultTransitions : Transitions where
  day_brightness := 1
  day_temperature := 5700
  night_temperature := 2400
  night_brightness := 0.7
  deep_night_brightness := 0
  deep_night_start_hour := 23
  deep_night_end_hour := 6
  sun_altitude_dawn_point := -0.4
  transition_time := 1
  brightness_cycle_length := 600
  temperature_cycle_length := 700
  brightness_cycle_amplitude := 30
  temperature_cycle_amplitude := 50

/-! ## Rust float remainder

Rust's `%` on `f64` is the remainder of truncating division:
`x % y = x - y * trunc(x / y)`. -/

/-- Truncation toward zero of a real, as Rust float-to-int conversion does. -/
noncomputable def truncR (x : ℝ) : ℤ := if 0 ≤ x then ⌊x⌋ else ⌈x⌉

/-- Rust `f64` `%` operator: `x - y * trunc(x / y)`. -/
noncomputable def rustRem (x y : ℝ) : ℝ := x - y * truncR (x / y)

/-- Congruence modulo `2π`, phrased with the `π * 2` the source writes. -/
def eqMod2pi (x y : ℝ) : Prop := ∃ k : ℤ, x - y = k * (Real.pi * 2)

/-! ## LightTarget (`main.rs` lines 118–190) -/

/-- The `LightTarget` struct: base brightness fraction, base mired,
oscillation phases and amplitudes. -/
structure LightTarget where
  bri : ℝ
  mired : ℝ
  bri_phase : ℝ
  mired_phase : ℝ
  bri_amplitude : ℝ
  mired_amplitude : ℝ

namespace LightTarget

/-- `LightTarget::target_color_temperature`:
`sigmoid(altitude_degrees / 3) * (day_temperature - night_temperature) + night_temperature`. -/
noncomputable def target_color_temperature (transitions : Transitions)
    (sun_altitude : ℝ) : ℝ :=
  sigmoid (toDegrees sun_altitude / 3)
    * (transitions.day_temperature - transitions.night_temperature)
    + transitions.night_temperature

/-- `LightTarget::target_brightness`: deep-night override when
`hour >= deep_night_start_hour || hour < deep_night_end_hour`, otherwise a
sigmoid between night and day brightness. -/
noncomputable def target_brightness (transitions : Transitions)
    (sun_altitude : ℝ) (hour : Nat) : ℝ :=
  if transitions.deep_night_start_hour ≤ hour ∨ hour < transitions.deep_night_end_hour then
    transitions.deep_night_brightness
  else
    sigmoid ((toDegrees sun_altitude - transitions.sun_altitude_dawn_point)
        / transitions.transition_time)
      * (transitions.day_brightness - transitions.night_brightness)
      + transitions.night_brightness

/-- `LightTarget::rotate`: both phases advanced by `angle`, reduced with the
Rust `%` operator by `PI * 2`; all other fields copied unchanged. -/
noncomputable def rotate (t : LightTarget) (angle : ℝ) : LightTarget :=
  { t with
    bri_phase := rustRem (t.bri_phase + angle) (Real.pi * 2)
    mired_phase := rustRem (t.mired_phase + angle) (Real.pi * 2) }

/-- `LightTarget::ct`: `(cos(mired_phase) * mired_amplitude + mired).max(0).min(65535) as u16`.
The saturating float-to-int cast truncates the already-clamped value. -/
noncomputable def ct (t : LightTarget) : Nat :=
  Int.toNat ⌊min (max (Real.cos t.mired_phase * t.mired_amplitude + t.mired) 0) 65535⌋

/-- `LightTarget::bri`: `(cos(bri_phase) * bri_amplitude + bri * 255).max(0).min(255) as u8`. -/
noncomputable def briOut (t : LightTarget) : Nat :=
  Int.toNat ⌊min (max (Real.cos t.bri_phase * t.bri_amplitude + t.bri * 255) 0) 255⌋

/-- `LightTarget::on`: `self.bri() != 0`. -/
noncomputable def isOn (t : LightTarget) : Bool := t.briOut != 0

end LightTarget

/-! ## Scenes, lights and groups (shapes of the `philipshue` values the
core consumes, with exactly the fields `main.rs` reads or writes) -/

/-- A light's stored state inside a scene (`LightStateChange`): every field
the bridge lets a scene omit is optional. -/
structure LightStateEntry where
  bri : Option Nat
  ct : Option Nat
  «on» : Option Bool
  transitiontime : Option Nat
deriving DecidableEq

/-- A light's live state as reported by the bridge (`light.state`):
brightness and on/off are always present, colour temperature is optional. -/
structure LiveLightState where
  bri : Nat
  ct : Option Nat
  «on» : Bool
deriving DecidableEq

/-- A scene: name, the disposable (`recycle`) flag, the ordered member light
ids, and per-light stored states (`lightstates`, a map iterated in key
order, modelled as an association list). -/
structure Scene where
  name : String
  recycle : Bool
  lights : List Nat
  lightstates : List (Nat × LightStateEntry)
deriving DecidableEq

/-- A group (`philipshue` `Group`): member lights and an optional
disposable flag. -/
structure Group where
  lights : List Nat
  recycle : Option Bool
deriving DecidableEq

/-- The bridge client, reduced to the query surface the core calls.
`none` models a call returning `Err`. -/
structure Bridge where
  getLight : Nat → Option LiveLightState
  getSceneWithStates : String → Option Scene
  getAllGroups : Option (List (Nat × Group))
  getAllScenes : Option (List (String × Scene))

/-- Rust `Option::map_or`. -/
def mapOr {α β : Type} (o : Option α) (d : β) (f : α → β) : β :=
  match o with
  | none => d
  | some a => f a

/-- The per-light comparison inside `scene_is_active`'s fold body:
`ls.bri.map_or(true, |b| is_close(b, tl.bri)) && tl.ct.map_or(true, |c1|
ls.ct.map_or(true, |c2| is_close(c1, c2))) && Some(tl.on) == ls.on`. -/
def lightMatches (ls : LightStateEntry) (tl : LiveLightState) : Bool :=
  mapOr ls.bri true (fun b => i8_extra.is_close b tl.bri)
    && mapOr tl.ct true (fun c1 => mapOr ls.ct true (fun c2 => i16_extra.is_close c1 c2))
    && (some tl.«on» == ls.«on»)

/-- The closure folded by `scene_is_active`: `if !b { false } else { let
light = bridge.get_light(*id).unwrap(); b && ... }`. A `false` accumulator
skips the fetch entirely; a failed fetch is an `unwrap` panic (`none`). -/
def activeStep (getLight : Nat → Option LiveLightState)
    (acc : Option Bool) (p : Nat × LightStateEntry) : Option Bool :=
  match acc with
  | none => none
  | some b =>
    if !b then some false
    else
      match getLight p.1 with
      | none => none
      | some light => some (b && lightMatches p.2 light)

/-- `scene_is_active` (`main.rs` 73–89): a fold over `scene.lightstates`
starting from `true`; a mismatching light turns the accumulator `false` and
later lights are no longer fetched; fetching a light's live state with
`.unwrap()` panics on `Err`, modelled as `none`. -/
def scene_is_active (getLight : Nat → Option LiveLightState) (scene : Scene) :
    Option Bool :=
  scene.lightstates.foldl (activeStep getLight) (some true)

/-- The per-light comparison as claimed by the specification's activity
contract: every field omitted from the stored scene entry — including
on/off — is "don't care". Written from the spec's words, to be compared
with `lightMatches`. -/
def specLightMatches (ls : LightStateEntry) (tl : LiveLightState) : Bool :=
  mapOr ls.bri true (fun b => i8_extra.is_close b tl.bri)
    && mapOr tl.ct true (fun c1 => mapOr ls.ct true (fun c2 => i16_extra.is_close c1 c2))
    && mapOr ls.«on» true (fun o => o == tl.«on»)

/-- Activity detection as claimed: true iff every member light matches its
stored state under `specLightMatches`; a failed fetch is still a panic. -/
def specSceneActive (getLight : Nat → Option LiveLightState) (scene : Scene) :
    Option Bool :=
  scene.lightstates.foldl
    (fun acc p =>
      match acc with
      | none => none
      | some b =>
        match getLight p.1 with
        | none => none
        | some light => some (b && specLightMatches p.2 light))
    (some true)

/-! ## Scene update (`main.rs` 91–116) -/

/-- Rust slice `binary_search`, bisection step: `mid = lo + (hi - lo) / 2`.
Returns the index of a slot holding `t`, or `none` (`Err`) when absent. -/
def bsAux (a : List Nat) (t : Nat) (lo hi : Nat) : Option Nat :=
  if h : lo < hi then
    let mid := lo + (hi - lo) / 2
    let v := a.getD mid 0
    if v < t then bsAux a t (mid + 1) hi
    else if t < v then bsAux a t lo mid
    else some mid
  else none
termination_by hi - lo
decreasing_by
  all_goals omega

/-- `scene.lights.binary_search(&light)`. -/
def binarySearch (a : List Nat) (t : Nat) : Option Nat := bsAux a t 0 a.length

/-- The state pushed for one light in `update_scene`: the stored entry with
`transitiontime = Some(150)` and brightness, colour temperature and on/off
taken from the rotated target. -/
noncomputable def pushedEntry (state : LightStateEntry) (tgt : LightTarget) :
    LightStateEntry :=
  { state with
    transitiontime := some 150
    bri := some tgt.briOut
    ct := some tgt.ct
    «on» := some tgt.isOn }

/-- `update_scene` (`main.rs` 91–116) as the list of `(light, state)` pairs
pushed to the bridge: for each `(light, state)` in `scene.lightstates`,
look the light up in `scene.lights` by binary search; on `Ok(idx)` rotate
the target by `(idx / len) * PI * 2` and push; on `Err` log and skip. -/
noncomputable def update_scene (scene : Scene) (light_target : LightTarget) :
    List (Nat × LightStateEntry) :=
  scene.lightstates.filterMap
    (fun p =>
      match binarySearch scene.lights p.1 with
      | some idx =>
        let rotation := ((idx : ℝ) / (scene.lights.length : ℝ)) * Real.pi * 2
        let this_light_target := light_target.rotate rotation
        some (p.1, pushedEntry p.2 this_light_target)
      | none => none)

/-! ## Scene reconciliation (`main.rs` 192–230, 250–275) -/

/-- Lowercasing a string character by character (`str::to_lowercase`),
viewed at the character-list level. -/
def lowerChars (s : String) : List Char := s.toList.map Char.toLower

/-- `l` begins with `pat`. -/
def beginsWith : List Char → List Char → Bool
  | [], _ => true
  | _ :: _, [] => false
  | a :: as_, b :: bs => a == b && beginsWith as_ bs

/-- `pat` occurs as a contiguous substring of `l` (`str::contains`). -/
def hasSub (pat : List Char) : List Char → Bool
  | [] => pat.isEmpty
  | c :: rest => beginsWith pat (c :: rest) || hasSub pat rest

/-- The managed-scene filter of `update_scenes`:
`scene.name.to_lowercase().contains("dayshift")` and `!scene.recycle`. -/
def managedScene (scene : Scene) : Bool :=
  hasSub "dayshift".toList (lowerChars scene.name) && !scene.recycle

/-- An observable bridge mutation issued by the reconciler. -/
inductive Action where
  | setLight (sceneId : String) (lightId : Nat) (state : LightStateEntry)
  | recall (groupId : Nat) (sceneId : String)

/-- The scene id an action targets. -/
def Action.sceneId : Action → String
  | .setLight sid _ _ => sid
  | .recall _ sid => sid

/-- The body of `update_scenes`'s `for_each` for one managed scene: fetch
the detailed scene (`Err` is logged and the scene skipped), run
`scene_is_active` (whose `get_light` unwrap may panic), push the updated
states, and when active fetch all groups with `.unwrap()` (panic on `Err`)
and recall the scene in every non-disposable group showing its lights.
Returns the actions issued and `false` when a panic aborted the process. -/
noncomputable def processScene (bridge : Bridge) (light_target : LightTarget)
    (scene_id : String) (scene : Scene) : List Action × Bool :=
  match bridge.getSceneWithStates scene_id with
  | none => ([], true)
  | some s =>
    match scene_is_active bridge.getLight s with
    | none => ([], false)
    | some scene_active =>
      let pushes := (update_scene s light_target).map
        (fun p => Action.setLight scene_id p.1 p.2)
      if scene_active then
        match bridge.getAllGroups with
        | none => (pushes, false)
        | some groups =>
          let recalls := (groups.filter
              (fun g => g.2.lights == scene.lights && !(g.2.recycle.getD false))).map
            (fun g => Action.recall g.1 scene_id)
          (pushes ++ recalls, true)
      else (pushes, true)

/-- `update_scenes` (`main.rs` 192–230): iterate the scene map in order,
keep only managed scenes, process each; a panic (second component `false`)
aborts the remaining iteration. -/
noncomputable def update_scenes (bridge : Bridge)
    (scenes : List (String × Scene)) (light_target : LightTarget) :
    List Action × Bool :=
  match scenes with
  | [] => ([], true)
  | p :: rest =>
    if managedScene p.2 then
      let r := processScene bridge light_target p.1 p.2
      if r.2 then
        let rr := update_scenes bridge rest light_target
        (r.1 ++ rr.1, rr.2)
      else (r.1, false)
    else update_scenes bridge rest light_target

/-- One iteration of the `main` control loop's bridge work (`main.rs`
266–269): `get_all_scenes` failure is matched and logged, the cycle is
skipped and the loop continues (second component `true`). -/
noncomputable def loopStep (bridge : Bridge) (light_target : LightTarget) :
    List Action × Bool :=
  match bridge.getAllScenes with
  | none => ([], true)
  | some scenes => update_scenes bridge scenes light_target

/-! ## Concrete fixtures for the reconciliation scenarios -/

/-- A concrete `LightTarget` (all-zero snapshot). -/
def lt0 : LightTarget := ⟨0, 0, 0, 0, 0, 0⟩

/-- A bridge on which every query fails. -/
def failBridge : Bridge := ⟨fun _ => none, fun _ => none, none, none⟩

/-- A managed scene with no lights. -/
def mScene : Scene := ⟨"dayshift A", false, [], []⟩

/-- An unmanaged scene: its name lacks the "dayshift" marker. -/
def plainScene : Scene := ⟨"Evening relax", false, [], []⟩
/-- A bridge light-state fetch used by the concrete activity scenarios:
light 1 reports brightness 100, colour temperature 300 mired, switched on. -/
def cexGetLight : Nat → Option LiveLightState := fun id =>
  if id == 1 then some ⟨100, some 300, true⟩ else none
/-- A managed scene whose single stored entry matches light 1's live state
on every specified field but omits the on/off field. -/
def cexScene : Scene :=
  ⟨"Living dayShift", false, [1], [(1, ⟨some 100, some 300, none, none⟩)]⟩
/-- A scene identical to `cexScene` except that its stored entry also
specifies the on/off field, matching the live state. -/
def c1wScene : Scene :=
  ⟨"Kitchen dayshift", false, [1], [(1, ⟨some 100, some 300, some true, none⟩)]⟩
/-- A managed scene whose single member light matches live state. -/
def sceneA : Scene := ⟨"dayshift A", false, [1], [(1, ⟨some 100, some 300, some true, none⟩)]⟩

/-- A second managed scene, to be processed after `sceneA`. -/
def sceneB : Scene := ⟨"dayshift B", false, [2], [(2, ⟨some 10, none, some true, none⟩)]⟩
/-- A bridge on which every light-state fetch fails but scene queries
succeed. -/
def lightFailBridge : Bridge :=
  ⟨fun _ => none, fun sid => if sid == "A" then some sceneA else some sceneB,
    some [], some [("A", sceneA), ("B", sceneB)]⟩
/-- A live state matching `sceneA`'s stored entry, making it active. -/
def liveMatch : Nat → Option LiveLightState := fun _ => some ⟨100, some 300, true⟩
/-- A bridge whose group-list query fails while a managed scene is active. -/
def groupFailBridge : Bridge :=
  ⟨liveMatch, fun _ => some sceneA, none, some [("A", sceneA)]⟩
/-- A bridge whose scene-list query fails. -/
def sceneListFailBridge : Bridge := ⟨fun _ => none, fun _ => none, none, none⟩

/-! ## Helper lemmas -/

lemma i8_diff_cast (a b : Nat) : (i8_extra.diff a b : ℤ) = |(a : ℤ) - (b : ℤ)| := by
  unfold i8_extra.diff
  rcases abs_cases ((a : ℤ) - (b : ℤ)) with ⟨he, h0⟩ | ⟨he, h0⟩ <;> rw [he] <;>
    split_ifs <;> omega

lemma i16_diff_cast (a b : Nat) : (i16_extra.diff a b : ℤ) = |(a : ℤ) - (b : ℤ)| := by
  unfold i16_extra.diff
  rcases abs_cases ((a : ℤ) - (b : ℤ)) with ⟨he, h0⟩ | ⟨he, h0⟩ <;> rw [he] <;>
    split_ifs <;> omega

lemma i8_diff_comm (a b : Nat) : i8_extra.diff a b = i8_extra.diff b a := by
  unfold i8_extra.diff; split_ifs <;> omega

lemma i16_diff_comm (a b : Nat) : i16_extra.diff a b = i16_extra.diff b a := by
  unfold i16_extra.diff; split_ifs <;> omega

lemma sigmoid_pos (x : ℝ) : 0 < sigmoid x := by
  unfold sigmoid
  have he : 0 < Real.exp x := Real.exp_pos x
  positivity

lemma sigmoid_lt_one (x : ℝ) : sigmoid x < 1 := by
  unfold sigmoid
  have he : 0 < Real.exp x := Real.exp_pos x
  rw [div_lt_one (by linarith)]
  linarith

/-- A convex-style interpolation `s * (d - n) + n` with `0 ≤ s ≤ 1` stays
between the endpoints `n` and `d`. -/
lemma interp_between (s n d : ℝ) (h0 : 0 ≤ s) (h1 : s ≤ 1) :
    min n d ≤ s * (d - n) + n ∧ s * (d - n) + n ≤ max n d := by
  rcases le_total n d with h | h
  · rw [min_eq_left h, max_eq_right h]
    constructor <;> nlinarith
  · rw [min_eq_right h, max_eq_left h]
    constructor <;> nlinarith

lemma rustRem_congr (x y : ℝ) : ∃ k : ℤ, rustRem x y = x - k * y :=
  ⟨truncR (x / y), by unfold rustRem; ring⟩

/-! ## Claim theorems -/

/-- C10: `i8_extra::diff` and `i16_extra::diff` compute the exact absolute
difference of their (8-bit, resp. 16-bit) arguments with no wraparound, so
`is_close` is symmetric and holds exactly when the absolute difference is
strictly below the tolerance (6, resp. 40). -/
theorem claim_C10 (a b c d : Nat)
    (_ha : a < 256) (_hb : b < 256) (_hc : c < 65536) (_hd : d < 65536) :
    ((i8_extra.diff a b : ℤ) = |(a : ℤ) - (b : ℤ)| ∧
      i8_extra.is_close a b = i8_extra.is_close b a ∧
      (i8_extra.is_close a b = true ↔ |(a : ℤ) - (b : ℤ)| < 6)) ∧
    ((i16_extra.diff c d : ℤ) = |(c : ℤ) - (d : ℤ)| ∧
      i16_extra.is_close c d = i16_extra.is_close d c ∧
      (i16_extra.is_close c d = true ↔ |(c : ℤ) - (d : ℤ)| < 40)) := by
  refine ⟨⟨i8_diff_cast a b, ?_, ?_⟩, i16_diff_cast c d, ?_, ?_⟩
  · unfold i8_extra.is_close; rw [i8_diff_comm]
  · simp only [i8_extra.is_close, decide_eq_true_eq, ← i8_diff_cast a b]
    omega
  · unfold i16_extra.is_close; rw [i16_diff_comm]
  · simp only [i16_extra.is_close, decide_eq_true_eq, ← i16_diff_cast c d]
    omega

theorem claim_C10_witness :
    (3 : Nat) < 256 ∧ (250 : Nat) < 256 ∧ (100 : Nat) < 65536 ∧ (130 : Nat) < 65536 ∧
    (((i8_extra.diff 3 250 : ℤ) = |(3 : ℤ) - (250 : ℤ)| ∧
        i8_extra.is_close 3 250 = i8_extra.is_close 250 3 ∧
        (i8_extra.is_close 3 250 = true ↔ |(3 : ℤ) - (250 : ℤ)| < 6)) ∧
      ((i16_extra.diff 100 130 : ℤ) = |(100 : ℤ) - (130 : ℤ)| ∧
        i16_extra.is_close 100 130 = i16_extra.is_close 130 100 ∧
        (i16_extra.is_close 100 130 = true ↔ |(100 : ℤ) - (130 : ℤ)| < 40))) :=
  ⟨by decide, by decide, by decide, by decide,
    claim_C10 3 250 100 130 (by decide) (by decide) (by decide) (by decide)⟩

/-- C4: for every hour inside the wrap-around deep-night window
(`hour ≥ start` or `hour < end`), `target_brightness` returns exactly the
configured `deep_night_brightness`, for every altitude and configuration. -/
theorem claim_C4 (transitions : Transitions) (sun_altitude : ℝ) (hour : Nat)
    (h : transitions.deep_night_start_hour ≤ hour ∨ hour < transitions.deep_night_end_hour) :
    LightTarget.target_brightness transitions sun_altitude hour
      = transitions.deep_night_brightness := by
  unfold LightTarget.target_brightness
  exact if_pos h

theorem claim_C4_witness :
    (defaultTransitions.deep_night_start_hour ≤ 2 ∨
      2 < defaultTransitions.deep_night_end_hour) ∧
    LightTarget.target_brightness defaultTransitions (-0.5) 2
      = defaultTransitions.deep_night_brightness :=
  ⟨Or.inr (by norm_num [defaultTransitions]),
    claim_C4 defaultTransitions (-0.5) 2 (Or.inr (by norm_num [defaultTransitions]))⟩

/-- C7: for every `LightTarget`, the brightness accessor lands in `[0, 255]`
and the colour-temperature accessor in `[0, 65535]`, whatever the amplitude
and base values are — the formula is clamped before the integer cast. -/
theorem claim_C7 (t : LightTarget) :
    (0 ≤ t.briOut ∧ t.briOut ≤ 255) ∧ (0 ≤ t.ct ∧ t.ct ≤ 65535) := by
  refine ⟨⟨Nat.zero_le _, ?_⟩, Nat.zero_le _, ?_⟩
  · unfold LightTarget.briOut
    have h1 : min (max (Real.cos t.bri_phase * t.bri_amplitude + t.bri * 255) 0) 255
        ≤ (255 : ℝ) := min_le_right _ _
    have h2 := Int.floor_le_floor h1
    have h3 : ⌊(255 : ℝ)⌋ = 255 := by norm_num
    omega
  · unfold LightTarget.ct
    have h1 : min (max (Real.cos t.mired_phase * t.mired_amplitude + t.mired) 0) 65535
        ≤ (65535 : ℝ) := min_le_right _ _
    have h2 := Int.floor_le_floor h1
    have h3 : ⌊(65535 : ℝ)⌋ = 65535 := by norm_num
    omega

/-- C6: `rotate` is additive modulo `2π` on both phases —
`rotate(a).rotate(b)` and `rotate(a + b)` produce congruent brightness and
mired phases — and leaves base brightness, base mired and both amplitudes
unchanged. -/
theorem claim_C6 (t : LightTarget) (a b : ℝ) :
    eqMod2pi ((t.rotate a).rotate b).bri_phase (t.rotate (a + b)).bri_phase ∧
    eqMod2pi ((t.rotate a).rotate b).mired_phase (t.rotate (a + b)).mired_phase ∧
    (t.rotate a).bri = t.bri ∧ (t.rotate a).mired = t.mired ∧
    (t.rotate a).bri_amplitude = t.bri_amplitude ∧
    (t.rotate a).mired_amplitude = t.mired_amplitude := by
  simp only [LightTarget.rotate]
  refine ⟨?_, ?_, trivial, trivial, trivial, trivial⟩
  · obtain ⟨k1, hk1⟩ := rustRem_congr (t.bri_phase + a) (Real.pi * 2)
    obtain ⟨k2, hk2⟩ := rustRem_congr (rustRem (t.bri_phase + a) (Real.pi * 2) + b) (Real.pi * 2)
    obtain ⟨k3, hk3⟩ := rustRem_congr (t.bri_phase + (a + b)) (Real.pi * 2)
    refine ⟨k3 - k1 - k2, ?_⟩
    rw [hk2, hk1, hk3]
    push_cast
    ring
  · obtain ⟨k1, hk1⟩ := rustRem_congr (t.mired_phase + a) (Real.pi * 2)
    obtain ⟨k2, hk2⟩ := rustRem_congr (rustRem (t.mired_phase + a) (Real.pi * 2) + b) (Real.pi * 2)
    obtain ⟨k3, hk3⟩ := rustRem_congr (t.mired_phase + (a + b)) (Real.pi * 2)
    refine ⟨k3 - k1 - k2, ?_⟩
    rw [hk2, hk1, hk3]
    push_cast
    ring

/-- C5 counterexample: with the default configuration and hour 2 (inside the
deep-night window) the computed brightness is the deep-night override `0`,
strictly below `night_brightness = 0.7` — the claimed bound fails. -/
theorem claim_C5_cex :
    ¬(defaultTransitions.night_brightness ≤
        LightTarget.target_brightness defaultTransitions (-0.5) 2 ∧
      LightTarget.target_brightness defaultTransitions (-0.5) 2 ≤
        defaultTransitions.day_brightness) := by
  have hb : LightTarget.target_brightness defaultTransitions (-0.5) 2
      = defaultTransitions.deep_night_brightness := by
    unfold LightTarget.target_brightness
    exact if_pos (Or.inr (by norm_num [defaultTransitions]))
  rw [hb]
  intro hcon
  have h1 := hcon.1
  norm_num [defaultTransitions] at h1

/-- C5 amended: outside the deep-night window `target_brightness` lies
between `night_brightness` and `day_brightness` inclusive, and for every
input `target_color_temperature` lies between `night_temperature` and
`day_temperature` inclusive, however extreme the altitude. -/
theorem claim_C5 (transitions : Transitions) (sun_altitude : ℝ) (hour : Nat)
    (h : ¬(transitions.deep_night_start_hour ≤ hour ∨
        hour < transitions.deep_night_end_hour)) :
    (min transitions.night_brightness transitions.day_brightness ≤
        LightTarget.target_brightness transitions sun_altitude hour ∧
      LightTarget.target_brightness transitions sun_altitude hour ≤
        max transitions.night_brightness transitions.day_brightness) ∧
    (min transitions.night_temperature transitions.day_temperature ≤
        LightTarget.target_color_temperature transitions sun_altitude ∧
      LightTarget.target_color_temperature transitions sun_altitude ≤
        max transitions.night_temperature transitions.day_temperature) := by
  constructor
  · unfold LightTarget.target_brightness
    rw [if_neg h]
    exact interp_between _ _ _
      (le_of_lt (sigmoid_pos _)) (le_of_lt (sigmoid_lt_one _))
  · unfold LightTarget.target_color_temperature
    exact interp_between _ _ _
      (le_of_lt (sigmoid_pos _)) (le_of_lt (sigmoid_lt_one _))

theorem claim_C5_witness :
    ¬(defaultTransitions.deep_night_start_hour ≤ 12 ∨
        12 < defaultTransitions.deep_night_end_hour) ∧
    ((min defaultTransitions.night_brightness defaultTransitions.day_brightness ≤
        LightTarget.target_brightness defaultTransitions 0.2 12 ∧
      LightTarget.target_brightness defaultTransitions 0.2 12 ≤
        max defaultTransitions.night_brightness defaultTransitions.day_brightness) ∧
     (min defaultTransitions.night_temperature defaultTransitions.day_temperature ≤
        LightTarget.target_color_temperature defaultTransitions 0.2 ∧
      LightTarget.target_color_temperature defaultTransitions 0.2 ≤
        max defaultTransitions.night_temperature defaultTransitions.day_temperature)) :=
  ⟨by norm_num [defaultTransitions],
    claim_C5 defaultTransitions 0.2 12 (by norm_num [defaultTransitions])⟩

lemma foldl_activeStep_false (getLight : Nat → Option LiveLightState)
    (l : List (Nat × LightStateEntry)) :
    l.foldl (activeStep getLight) (some false) = some false := by
  induction l with
  | nil => rfl
  | cons p rest ih => rw [List.foldl_cons]; exact ih

lemma lightMatches_iff (ls : LightStateEntry) (tl : LiveLightState) :
    lightMatches ls tl = true ↔
      ((∀ b ∈ ls.bri, i8_extra.diff b tl.bri < 6) ∧
       (∀ c1 ∈ tl.ct, ∀ c2 ∈ ls.ct, i16_extra.diff c1 c2 < 40) ∧
       ls.«on» = some tl.«on») := by
  obtain ⟨lb, lc, lo, ltt⟩ := ls
  obtain ⟨tb, tc, ton⟩ := tl
  cases lb <;> cases lc <;> cases tc <;> cases lo <;>
    simp [lightMatches, mapOr, i8_extra.is_close, i16_extra.is_close] <;>
    tauto

lemma foldl_activeStep_true_iff (getLight : Nat → Option LiveLightState)
    (l : List (Nat × LightStateEntry))
    (hfetch : ∀ p ∈ l, (getLight p.1).isSome) :
    (l.foldl (activeStep getLight) (some true) = some true ↔
      ∀ p ∈ l, ∀ tl, getLight p.1 = some tl → lightMatches p.2 tl = true) := by
  induction l with
  | nil => simp
  | cons hd rest ih =>
    obtain ⟨light, hlight⟩ :=
      Option.isSome_iff_exists.mp (hfetch hd (List.mem_cons_self hd rest))
    have hstep : activeStep getLight (some true) hd = some (lightMatches hd.2 light) := by
      unfold activeStep
      rw [hlight]
      simp
    rw [List.foldl_cons, hstep]
    rcases hm : lightMatches hd.2 light with _ | _
    · rw [foldl_activeStep_false]
      constructor
      · intro hcon; exact absurd hcon (by simp)
      · intro hall
        have hh := hall hd (List.mem_cons_self hd rest) light hlight
        rw [hh] at hm
        exact absurd hm (by simp)
    · rw [ih (fun p hp => hfetch p (List.mem_cons_of_mem hd hp))]
      constructor
      · intro hall p hp tl htl
        rcases List.mem_cons.mp hp with heq | hp'
        · subst heq
          rw [hlight] at htl
          injection htl with h
          subst h
          exact hm
        · exact hall p hp' tl htl
      · intro hall p hp tl htl
        exact hall p (List.mem_cons_of_mem hd hp) tl htl

/-- C1 amended: when every member light's live state can be fetched, the
scene is detected active iff for every stored light entry the specified
brightness is within 6 of the live brightness, any specified colour
temperature is within 40 of a reported live colour temperature, and the
stored on/off field is present and exactly equal to the live on/off —
an omitted on/off always makes the scene count as inactive. -/
theorem claim_C1 (getLight : Nat → Option LiveLightState) (scene : Scene)
    (hfetch : ∀ p ∈ scene.lightstates, (getLight p.1).isSome) :
    scene_is_active getLight scene = some true ↔
      ∀ p ∈ scene.lightstates, ∀ tl, getLight p.1 = some tl →
        ((∀ b ∈ p.2.bri, i8_extra.diff b tl.bri < 6) ∧
         (∀ c1 ∈ tl.ct, ∀ c2 ∈ p.2.ct, i16_extra.diff c1 c2 < 40) ∧
         p.2.«on» = some tl.«on») := by
  unfold scene_is_active
  rw [foldl_activeStep_true_iff getLight _ hfetch]
  constructor
  · intro h p hp tl htl
    exact (lightMatches_iff p.2 tl).mp (h p hp tl htl)
  · intro h p hp tl htl
    exact (lightMatches_iff p.2 tl).mpr (h p hp tl htl)

/-- C1 counterexample: on `cexScene` the stored entry omits only the on/off
field and matches the live state on every specified field, so the claimed
contract (`specSceneActive`) reports the scene active, but
`scene_is_active` reports it inactive: `Some(tl.on) == ls.on` fails when
`ls.on` is `None`, so an omitted field does cause a mismatch. -/
theorem claim_C1_cex :
    specSceneActive cexGetLight cexScene = some true ∧
    scene_is_active cexGetLight cexScene = some false :=
  ⟨rfl, rfl⟩

theorem claim_C1_witness :
    (∀ p ∈ c1wScene.lightstates, (cexGetLight p.1).isSome) ∧
    (scene_is_active cexGetLight c1wScene = some true ↔
      ∀ p ∈ c1wScene.lightstates, ∀ tl, cexGetLight p.1 = some tl →
        ((∀ b ∈ p.2.bri, i8_extra.diff b tl.bri < 6) ∧
         (∀ c1 ∈ tl.ct, ∀ c2 ∈ p.2.ct, i16_extra.diff c1 c2 < 40) ∧
         p.2.«on» = some tl.«on»)) :=
  ⟨by decide, claim_C1 cexGetLight c1wScene (by decide)⟩

/-- C3: every `(light, state)` pair pushed by `update_scene` carries the
fixed transition time `150` (the spec's 1.5-second constant) together with
the brightness, colour temperature and on/off of the shared target rotated
by that light's angle `(idx / member_count) * 2π`. -/
theorem claim_C3 (scene : Scene) (light_target : LightTarget) :
    List.Forall
      (fun p : Nat × LightStateEntry =>
        p.2.transitiontime = some 150 ∧
        ∃ idx, binarySearch scene.lights p.1 = some idx ∧
          p.2.bri = some ((light_target.rotate
              (((idx : ℝ) / (scene.lights.length : ℝ)) * Real.pi * 2)).briOut) ∧
          p.2.ct = some ((light_target.rotate
              (((idx : ℝ) / (scene.lights.length : ℝ)) * Real.pi * 2)).ct) ∧
          p.2.«on» = some ((light_target.rotate
              (((idx : ℝ) / (scene.lights.length : ℝ)) * Real.pi * 2)).isOn))
      (update_scene scene light_target) := by
  rw [List.forall_iff_forall_mem]
  intro x hx
  unfold update_scene at hx
  rcases List.mem_filterMap.mp hx with ⟨p, _hp, hf⟩
  rcases hbs : binarySearch scene.lights p.1 with _ | idx
  · rw [hbs] at hf
    exact Option.noConfusion hf
  · rw [hbs] at hf
    injection hf with hf
    subst hf
    exact ⟨rfl, idx, hbs, rfl, rfl, rfl⟩

lemma processScene_sceneId (bridge : Bridge) (light_target : LightTarget)
    (scene_id : String) (scene : Scene) :
    ∀ a ∈ (processScene bridge light_target scene_id scene).1,
      a.sceneId = scene_id := by
  intro a ha
  unfold processScene at ha
  split at ha
  · simp at ha
  · split at ha
    · simp at ha
    · split at ha
      · split at ha
        · dsimp only at ha
          rcases List.mem_map.mp ha with ⟨p, _, hpa⟩
          rw [← hpa]; rfl
        · dsimp only at ha
          rcases List.mem_append.mp ha with hm | hm
          · rcases List.mem_map.mp hm with ⟨p, _, hpa⟩
            rw [← hpa]; rfl
          · rcases List.mem_map.mp hm with ⟨g, _, hga⟩
            rw [← hga]; rfl
      · dsimp only at ha
        rcases List.mem_map.mp ha with ⟨p, _, hpa⟩
        rw [← hpa]; rfl

lemma key_unique {l : List (String × Scene)} (hnd : (l.map Prod.fst).Nodup)
    {k : String} {s s' : Scene} (h1 : (k, s) ∈ l) (h2 : (k, s') ∈ l) :
    s = s' := by
  induction l with
  | nil => cases h1
  | cons hd rest ih =>
    rcases List.mem_cons.mp h1 with he1 | hm1 <;>
      rcases List.mem_cons.mp h2 with he2 | hm2
    · rw [← he1] at he2; exact (Prod.mk.injEq _ _ _ _).mp he2.symm |>.2
    · exfalso
      have : k ∈ rest.map Prod.fst := List.mem_map.mpr ⟨(k, s'), hm2, rfl⟩
      rw [← he1] at hnd
      exact (List.nodup_cons.mp (by simpa using hnd)).1 this
    · exfalso
      have : k ∈ rest.map Prod.fst := List.mem_map.mpr ⟨(k, s), hm1, rfl⟩
      rw [← he2] at hnd
      exact (List.nodup_cons.mp (by simpa using hnd)).1 this
    · exact ih (List.nodup_cons.mp (by simpa using hnd)).2 hm1 hm2

lemma update_scenes_avoids (bridge : Bridge) (light_target : LightTarget)
    (scenes : List (String × Scene)) (id : String)
    (h : ∀ q ∈ scenes, q.1 = id → managedScene q.2 = false) :
    ∀ a ∈ (update_scenes bridge scenes light_target).1, a.sceneId ≠ id := by
  induction scenes with
  | nil => intro a ha; cases ha
  | cons p rest ih =>
    intro a ha
    unfold update_scenes at ha
    by_cases hm : managedScene p.2
    · have hne : p.1 ≠ id := by
        intro he
        have hc := h p (List.mem_cons_self p rest) he
        rw [hm] at hc
        cases hc
      rw [if_pos hm] at ha
      dsimp only at ha
      rcases hr : (processScene bridge light_target p.1 p.2).2 with _ | _
      · rw [hr] at ha
        simp only [Bool.false_eq_true, if_false] at ha
        rw [processScene_sceneId bridge light_target p.1 p.2 a ha]
        exact hne
      · rw [hr] at ha
        simp only [if_true] at ha
        rcases List.mem_append.mp ha with hm1 | hm2
        · rw [processScene_sceneId bridge light_target p.1 p.2 a hm1]
          exact hne
        · exact ih (fun q hq => h q (List.mem_cons_of_mem p hq)) a hm2
    · rw [if_neg hm] at ha
      exact ih (fun q hq => h q (List.mem_cons_of_mem p hq)) a ha

/-- C8: the reconciler issues no per-light state write and no recall
targeting a scene whose name lacks the (case-insensitively compared)
"dayshift" marker or that is flagged disposable — such scenes are left
untouched by the whole cycle. -/
theorem claim_C8 (bridge : Bridge) (scenes : List (String × Scene))
    (light_target : LightTarget) (id : String) (s : Scene)
    (hnd : (scenes.map Prod.fst).Nodup) (hmem : (id, s) ∈ scenes)
    (hunmanaged : managedScene s = false) :
    ∀ a ∈ (update_scenes bridge scenes light_target).1, a.sceneId ≠ id := by
  apply update_scenes_avoids
  intro q hq hqid
  have hq' : (id, q.2) ∈ scenes := by
    have : q = (id, q.2) := by
      rcases q with ⟨q1, q2⟩
      simp only at hqid
      rw [hqid]
    rw [← this]
    exact hq
  rw [key_unique hnd hq' hmem]
  exact hunmanaged

theorem claim_C8_witness :
    ([("a", mScene), ("b", plainScene)].map Prod.fst).Nodup ∧
    ("b", plainScene) ∈ [("a", mScene), ("b", plainScene)] ∧
    managedScene plainScene = false ∧
    (∀ a ∈ (update_scenes failBridge [("a", mScene), ("b", plainScene)] lt0).1,
      a.sceneId ≠ "b") :=
  ⟨by decide, by decide, by decide,
    claim_C8 failBridge [("a", mScene), ("b", plainScene)] lt0 "b" plainScene
      (by decide) (by decide) (by decide)⟩

/-- C2: with two managed scenes and a bridge whose light-state fetch fails,
`scene_is_active`'s `.unwrap()` panics while checking the first scene: the
whole pass aborts (`false`) with no action issued, and the second scene is
never reached — the failure is not a recoverable, scene-local error. -/
theorem claim_C2 :
    update_scenes lightFailBridge [("A", sceneA), ("B", sceneB)] lt0
      = ([], false) := rfl

/-- C9: a scene-list fetch failure is handled — the cycle is skipped and
the loop continues (`true`); but a group-list fetch failure hits
`get_all_groups().unwrap()` and panics (`false`), terminating the process
instead of continuing at the next deadline. -/
theorem claim_C9 :
    loopStep sceneListFailBridge lt0 = ([], true) ∧
    (loopStep groupFailBridge lt0).2 = false :=
  ⟨rfl, rfl⟩

end HueMie
